import Mathlib

/-!
Verification development for the torch_the_tartan repository.

The repository is a React frontend plus a Flask backend.  The backend
caching layer (backend/database.py, backend/app.py) is described by the
specification and by the in-repo documentation, but its Python source is
not part of the source tree given here; it is therefore modelled from the
specification.  The frontend React components (FaceRecognition.js,
VoiceRecognition.js, MusicIdentification.js) are embedded directly from
their JavaScript source.
-/

namespace TorchTartan

/-! ## FeatureCache data model (modelled from the spec) -/

/-- Modelled from the spec: result payload of a recognition, with a
recognized label and a confidence in the unit interval (spec section 6:
the recognizer returns a label, a confidence, and metadata; the metadata
mapping is ignored by every cache operation and is omitted).
The Python module backend/database.py is missing from the source tree. -/
structure RecogResult where
  label : String
  confidence : ℚ
  deriving Repr, DecidableEq

/-- Modelled from the spec, section 3: a CacheEntry holds the fingerprint,
the result payload, a hit count and both timestamps.
backend/database.py is missing from the source tree. -/
structure CacheEntry where
  fingerprint : String
  result : RecogResult
  hit_count : Nat
  created_at : Nat
  last_accessed_at : Nat
  deriving Repr, DecidableEq

/-- Modelled from the spec: the cache table, one row per CacheEntry. -/
abbrev Cache := List CacheEntry

/-- Keyed search of the cache table for a fingerprint. -/
def findEntry (fp : String) (c : Cache) : Option CacheEntry :=
  c.find? (fun e => e.fingerprint == fp)

/-- Modelled from the spec, section 4.1: on presence, lookup increments
hit_count and updates last_accessed_at as an observable side effect and
returns the entry; on absence it returns none and leaves the table
unchanged.  Time is passed in explicitly as `now`.
backend/database.py is missing from the source tree. -/
def lookup (fp : String) (now : Nat) (c : Cache) : Option CacheEntry × Cache :=
  match findEntry fp c with
  | none => (none, c)
  | some e =>
    let e' : CacheEntry :=
      { e with hit_count := e.hit_count + 1, last_accessed_at := now }
    (some e', c.map (fun x => if x.fingerprint == fp then e' else x))

/-- Modelled from the spec, section 4.1: store fails with a DuplicateKey
condition if the fingerprint already exists. -/
inductive StoreError where
  | DuplicateKey
  deriving Repr, DecidableEq

/-- Modelled from the spec, section 4.1: store inserts a new entry with
hit_count 0 and both timestamps set to now, and fails with DuplicateKey
if the fingerprint already exists.
backend/database.py is missing from the source tree. -/
def store (fp : String) (r : RecogResult) (now : Nat) (c : Cache) :
    Except StoreError (CacheEntry × Cache) :=
  match findEntry fp c with
  | some _ => .error .DuplicateKey
  | none =>
    let e : CacheEntry :=
      { fingerprint := fp, result := r, hit_count := 0
        created_at := now, last_accessed_at := now }
    .ok (e, c ++ [e])

/-- Modelled from the spec, section 4.1: aggregate report of stats. -/
structure CacheStats where
  entry_count : Nat
  total_hits : Nat
  deriving Repr, DecidableEq

/-- Modelled from the spec, section 4.1: stats reports the entry count and
the total number of hits over all entries.
backend/database.py is missing from the source tree. -/
def stats (c : Cache) : CacheStats :=
  { entry_count := c.length, total_hits := (c.map (·.hit_count)).sum }

/-- Modelled from the spec, section 4.1: clear removes all entries
unconditionally.  backend/database.py is missing from the source tree. -/
def clear (_c : Cache) : Cache := []

/-! ## RecognitionGateway (modelled from the spec) -/

/-- Modelled from the spec: a FeatureVector is an ordered set of named
numeric measurements. -/
abbrev FeatureVector := List (String × Int)

/-- Modelled from the spec, section 3: each feature value is rounded to a
bucket before hashing; the concrete bucket width is not fixed by the spec. -/
def bucket (v : Int) : Int := v / 10

/-- Modelled from the spec, section 3: a fingerprint is a fixed-width key
computed deterministically from a FeatureVector by bucketing each value
and serializing the tuple.
backend/database.py is missing from the source tree. -/
def fingerprint (fv : FeatureVector) : String :=
  String.intercalate "|" (fv.map (fun p => p.1 ++ "=" ++ toString (bucket p.2)))

/-- Modelled from the spec, section 6: the external recognizer may raise a
RecognitionFailed condition. -/
inductive RecogError where
  | RecognitionFailed (msg : String)
  deriving Repr, DecidableEq

/-- Modelled from the spec, section 4.2: the result of recognize, the raw
recognizer result annotated with the cached flag and the hit count. -/
structure GatewayResult where
  result : RecogResult
  cached : Bool
  cache_hits : Nat
  deriving Repr, DecidableEq

/-- Modelled from the spec, section 7: errors the gateway surfaces to its
caller, recognizer failures and storage failures. -/
inductive GatewayError where
  | recognition (e : RecogError)
  | storage (e : StoreError)
  deriving Repr, DecidableEq

/-- Modelled from the spec, section 4.2: recognize computes the
fingerprint, consults the cache; on a hit it returns the cached result
annotated cached true with the current hit count; on a miss it invokes
recognizerFn, stores the returned result via store, and returns it
annotated cached false.  A recognizer failure is surfaced verbatim and
the cache is left unchanged.  backend/app.py is missing from the source
tree. -/
def recognize (fv : FeatureVector)
    (recognizerFn : FeatureVector → Except RecogError RecogResult)
    (now : Nat) (c : Cache) : Except GatewayError GatewayResult × Cache :=
  let fp := fingerprint fv
  match lookup fp now c with
  | (some e, c') => (.ok { result := e.result, cached := true, cache_hits := e.hit_count }, c')
  | (none, _) =>
    match recognizerFn fv with
    | .error err => (.error (.recognition err), c)
    | .ok r =>
      match store fp r now c with
      | .error serr => (.error (.storage serr), c)
      | .ok (_, c') => (.ok { result := r, cached := false, cache_hits := 0 }, c')

/-! ## Cache operation traces, for the invariant claim -/

/-- One call against the FeatureCache interface of spec section 4.1. -/
inductive CacheOp where
  | lookupOp (fp : String) (now : Nat)
  | storeOp (fp : String) (r : RecogResult) (now : Nat)
  | statsOp
  | clearOp
  deriving Repr, DecidableEq

/-- State transition of one FeatureCache call: lookup mutates the found
entry, a failed store leaves the table unchanged, stats reads only, clear
empties the table. -/
def stepOp (c : Cache) (op : CacheOp) : Cache :=
  match op with
  | .lookupOp fp now => (lookup fp now c).2
  | .storeOp fp r now =>
    match store fp r now c with
    | .ok (_, c') => c'
    | .error _ => c
  | .statsOp => c
  | .clearOp => clear c

/-- Run a sequence of FeatureCache calls from a starting table. -/
def runOps (c : Cache) (ops : List CacheOp) : Cache := ops.foldl stepOp c

/-- Spec section 3 invariant: fingerprint is unique per entry. -/
def UniqueFingerprints (c : Cache) : Prop :=
  (c.map (·.fingerprint)).Nodup

instance (c : Cache) : Decidable (UniqueFingerprints c) := by
  unfold UniqueFingerprints; infer_instance

/-- Spec section 3 invariant relating a table to a later table: an entry
surviving under its fingerprint never loses hits and keeps its payload. -/
def EntryEvolution (c c' : Cache) : Prop :=
  ∀ e' ∈ c', ∀ e ∈ c, e.fingerprint = e'.fingerprint →
    e.hit_count ≤ e'.hit_count ∧ e.result = e'.result

/-! ## MusicIdentification.js: formatTime (embedded from the source) -/

/-- JavaScript String.prototype.padStart with a single-character pad:
prepend copies of the pad character until the string is at least `len`
long.  Used by formatTime in MusicIdentification.js line 99. -/
def padStart (s : String) (len : Nat) (c : Char) : String :=
  String.mk (List.replicate (len - s.length) c) ++ s

/-- Embedded from src/frontend/src/components/MusicIdentification.js
lines 96 to 100: mins is the integer quotient of seconds by 60, secs is
seconds mod 60, and the result interpolates mins, a colon, and secs
padded at the start to two characters with the zero digit. -/
def formatTime (seconds : Nat) : String :=
  let mins := seconds / 60
  let secs := seconds % 60
  toString mins ++ ":" ++ padStart (toString secs) 2 '0'

/-- Written from the words of claim C8: the minutes part, a colon, and
the seconds part rendered as exactly two digits, left padded with a zero
digit when seconds mod 60 is below 10. -/
def formatTimeClaim (s : Nat) : String :=
  toString (s / 60) ++ ":" ++
    (if s % 60 < 10 then "0" ++ toString (s % 60) else toString (s % 60))

/-! ## FaceRecognition.js component state (embedded from the source) -/

/-- State of the FaceRecognition React component that the handlers under
study read or write: the two useState image slots, the result slot, the
loading flag, the two camera flags, and the presence of the media stream,
of the live detection interval, and of the video element's srcObject.
Image blobs and backend responses are opaque type parameters. -/
structure FaceState (Img Res : Type) where
  capturedImage : Option Img
  uploadedImage : Option Img
  result : Option Res
  loading : Bool
  cameraActive : Bool
  liveDetection : Bool
  streamSet : Bool
  detectionIntervalSet : Bool
  videoSrcSet : Bool
  deriving Repr, DecidableEq

/-- Embedded from FaceRecognition.js lines 77 to 88: stop the stream
tracks and deactivate the camera when a stream is held; clear the live
detection interval and flag when one is set. -/
def stopCamera {Img Res : Type} (s : FaceState Img Res) : FaceState Img Res :=
  let s1 := if s.streamSet
    then { s with streamSet := false, cameraActive := false }
    else s
  if s1.detectionIntervalSet
    then { s1 with detectionIntervalSet := false, liveDetection := false }
    else s1

/-- Embedded from FaceRecognition.js lines 94 to 144: capturePhoto
returns early when the video or canvas ref is null (`refsOk` models both
refs being non-null); otherwise the toBlob callback stores the captured
blob, nulls the uploaded image and the result, and stopCamera runs. -/
def capturePhoto {Img Res : Type} (refsOk : Bool) (blob : Img)
    (s : FaceState Img Res) : FaceState Img Res :=
  if refsOk then
    stopCamera { s with capturedImage := some blob, uploadedImage := none,
                        result := none }
  else s

/-- Embedded from FaceRecognition.js lines 146 to 153: when the chosen
file list is non-empty, store the file as the uploaded image and null the
captured image and the result; otherwise do nothing. -/
def handleFileUpload {Img Res : Type} (file : Option Img)
    (s : FaceState Img Res) : FaceState Img Res :=
  match file with
  | some f => { s with uploadedImage := some f, capturedImage := none,
                       result := none }
  | none => s

/-- Embedded from FaceRecognition.js lines 184 to 191: null both image
slots and the result; when the video ref is non-null (`videoRefOk`) also
null its srcObject. -/
def clearImage {Img Res : Type} (videoRefOk : Bool)
    (s : FaceState Img Res) : FaceState Img Res :=
  let s1 : FaceState Img Res :=
    { s with capturedImage := none, uploadedImage := none, result := none }
  if videoRefOk then { s1 with videoSrcSet := false } else s1

/-- The invariant of claim C9: at most one of capturedImage and
uploadedImage is non-null. -/
def AtMostOneImage {Img Res : Type} (s : FaceState Img Res) : Prop :=
  s.capturedImage = none ∨ s.uploadedImage = none

/-! ## VoiceRecognition.js component state (embedded from the source) -/

/-- State of the VoiceRecognition React component: the useState slots
isRecording, audioBlob, result, loading, context, and the audioChunksRef
list.  Blobs, audio chunks and backend responses are opaque parameters. -/
structure VoiceState (Blob Chunk Res : Type) where
  isRecording : Bool
  audioBlob : Option Blob
  result : Option Res
  loading : Bool
  context : String
  audioChunks : List Chunk
  deriving Repr, DecidableEq

/-- Embedded from src/frontend/src/components/VoiceRecognition.js lines
78 to 82: clearRecording nulls audioBlob and result and empties the
recorded chunk list. -/
def clearRecording {Blob Chunk Res : Type} (s : VoiceState Blob Chunk Res) :
    VoiceState Blob Chunk Res :=
  { s with audioBlob := none, result := none, audioChunks := [] }

/-! ## Helper lemmas -/

theorem findEntry_eq_some_imp {fp : String} {c : Cache} {e : CacheEntry}
    (h : findEntry fp c = some e) : e ∈ c ∧ e.fingerprint = fp := by
  refine ⟨List.mem_of_find?_eq_some h, ?_⟩
  have := List.find?_some h
  simpa using this

theorem findEntry_eq_none_imp {fp : String} {c : Cache}
    (h : findEntry fp c = none) : ∀ e ∈ c, e.fingerprint ≠ fp := by
  intro e he
  have := List.find?_eq_none.mp h e he
  simpa using this

theorem findEntry_append_singleton {fp : String} {c : Cache} {e : CacheEntry}
    (hc : findEntry fp c = none) (he : e.fingerprint = fp) :
    findEntry fp (c ++ [e]) = some e := by
  induction c with
  | nil => simp [findEntry, List.find?, he]
  | cons x xs ih =>
    have hx : (x.fingerprint == fp) = false := by
      have := findEntry_eq_none_imp hc x (List.mem_cons_self x xs)
      simpa using this
    have hxs : findEntry fp xs = none := by
      have := hc
      unfold findEntry at this ⊢
      rwa [List.find?_cons, hx] at this
    have := ih hxs
    unfold findEntry at this ⊢
    rw [List.cons_append, List.find?_cons, hx]
    exact this

theorem padStart_toString_two {m : Nat} (hm : m < 60) :
    padStart (toString m) 2 '0' =
      if m < 10 then "0" ++ toString m else toString m := by
  interval_cases m <;> rfl

/-! ## Claim theorems -/

/-- C8: for every non-negative integer number of seconds s, formatTime s
is the string of the integer quotient of s by 60, a colon, and s mod 60
rendered as exactly two digits, left padded with a zero digit when s mod
60 is below 10; in particular formatTime 65 is the string 1:05. -/
theorem formatTime_correct :
    (∀ s : Nat, formatTime s = formatTimeClaim s) ∧ formatTime 65 = "1:05" := by
  constructor
  · intro s
    have hm : s % 60 < 60 := Nat.mod_lt _ (by norm_num)
    unfold formatTime formatTimeClaim
    show toString (s / 60) ++ ":" ++ padStart (toString (s % 60)) 2 '0' = _
    rw [padStart_toString_two hm]
  · rfl

/-- C10: clearRecording nulls audioBlob and result and empties the
recorded chunk list, and leaves isRecording, loading and context
unchanged. -/
theorem clearRecording_correct {Blob Chunk Res : Type}
    (s : VoiceState Blob Chunk Res) :
    (clearRecording s).audioBlob = none ∧
    (clearRecording s).result = none ∧
    (clearRecording s).audioChunks = [] ∧
    (clearRecording s).isRecording = s.isRecording ∧
    (clearRecording s).loading = s.loading ∧
    (clearRecording s).context = s.context :=
  ⟨rfl, rfl, rfl, rfl, rfl, rfl⟩

/-- C6: clear removes all entries unconditionally, and after a clear a
lookup of any fingerprint at any time returns absent. -/
theorem clear_then_lookup_absent (fp : String) (now : Nat) (c : Cache) :
    clear c = [] ∧ (lookup fp now (clear c)).1 = none :=
  ⟨rfl, rfl⟩

/-- C7: starting from the empty cache, storing fingerprint A1 with the
result of label X and confidence 0.9 inserts that entry with hit count 0;
a lookup of A1 then returns that result with hit count 1, a second lookup
returns it with hit count 2, and stats then reports entry count 1 and
total hits 2. -/
theorem cache_scenario_A1 :
    let r : RecogResult := { label := "X", confidence := 0.9 }
    let e0 : CacheEntry :=
      { fingerprint := "A1", result := r, hit_count := 0
        created_at := 0, last_accessed_at := 0 }
    let c1 : Cache := [e0]
    let l1 := lookup "A1" 1 c1
    let l2 := lookup "A1" 2 l1.2
    store "A1" r 0 [] = .ok (e0, c1) ∧
    l1.1.map CacheEntry.result = some r ∧
    l1.1.map CacheEntry.hit_count = some 1 ∧
    l2.1.map CacheEntry.result = some r ∧
    l2.1.map CacheEntry.hit_count = some 2 ∧
    stats l2.2 = { entry_count := 1, total_hits := 2 } :=
  ⟨rfl, rfl, rfl, rfl, rfl, rfl⟩

/-- C2: store of a fingerprint absent from the cache appends a new entry
with hit count 0, and store of a fingerprint already present fails with
the DuplicateKey condition and leaves the cache state unchanged. -/
theorem store_insert_or_duplicate (fp : String) (r : RecogResult) (now : Nat)
    (c : Cache) :
    (findEntry fp c = none →
      store fp r now c =
        .ok ({ fingerprint := fp, result := r, hit_count := 0
               created_at := now, last_accessed_at := now },
             c ++ [{ fingerprint := fp, result := r, hit_count := 0
                     created_at := now, last_accessed_at := now }])) ∧
    (∀ e, findEntry fp c = some e →
      store fp r now c = .error .DuplicateKey ∧
      stepOp c (.storeOp fp r now) = c) := by
  constructor
  · intro h
    unfold store
    rw [h]
  · intro e h
    have hs : store fp r now c = .error .DuplicateKey := by
      unfold store; rw [h]
    refine ⟨hs, ?_⟩
    simp only [stepOp, hs]

/-- Closed witness for C2: on the empty cache, storing fingerprint A
inserts the entry with hit count 0; storing A again fails with
DuplicateKey and the cache operation leaves the state unchanged. -/
theorem store_insert_or_duplicate_witness :
    (findEntry "A" ([] : Cache) = none ∧
      store "A" { label := "X", confidence := 0.9 } 0 [] =
        .ok ({ fingerprint := "A", result := { label := "X", confidence := 0.9 },
               hit_count := 0, created_at := 0, last_accessed_at := 0 },
             [{ fingerprint := "A", result := { label := "X", confidence := 0.9 },
                hit_count := 0, created_at := 0, last_accessed_at := 0 }])) ∧
    (findEntry "A"
        [{ fingerprint := "A", result := { label := "X", confidence := 0.9 },
           hit_count := 0, created_at := 0, last_accessed_at := 0 }] =
      some { fingerprint := "A", result := { label := "X", confidence := 0.9 },
             hit_count := 0, created_at := 0, last_accessed_at := 0 } ∧
      store "A" { label := "X", confidence := 0.9 } 1
          [{ fingerprint := "A", result := { label := "X", confidence := 0.9 },
             hit_count := 0, created_at := 0, last_accessed_at := 0 }] =
        .error .DuplicateKey) :=
  ⟨⟨rfl, (store_insert_or_duplicate "A" _ 0 []).1 rfl⟩,
   ⟨rfl, ((store_insert_or_duplicate "A" { label := "X", confidence := 0.9 } 1
      [{ fingerprint := "A", result := { label := "X", confidence := 0.9 },
         hit_count := 0, created_at := 0, last_accessed_at := 0 }]).2 _ rfl).1⟩⟩

/-- C4: a successful store of a result payload followed immediately by a
lookup of the same fingerprint returns an entry carrying exactly the
payload that was written. -/
theorem store_lookup_roundtrip (fp : String) (r : RecogResult)
    (now now' : Nat) (c : Cache) (e : CacheEntry) (c' : Cache)
    (h : store fp r now c = .ok (e, c')) :
    (lookup fp now' c').1.map CacheEntry.result = some r := by
  unfold store at h
  cases hf : findEntry fp c with
  | some x => rw [hf] at h; exact absurd h (by simp)
  | none =>
    rw [hf] at h
    simp only [Except.ok.injEq, Prod.mk.injEq] at h
    obtain ⟨he, hc'⟩ := h
    subst he
    subst hc'
    have hfind :
        findEntry fp
            (c ++ [{ fingerprint := fp, result := r, hit_count := 0
                     created_at := now, last_accessed_at := now }]) =
          some { fingerprint := fp, result := r, hit_count := 0
                 created_at := now, last_accessed_at := now } :=
      findEntry_append_singleton hf rfl
    unfold lookup
    rw [hfind]
    rfl

theorem recognize_hit (fv : FeatureVector)
    (f : FeatureVector → Except RecogError RecogResult) (now : Nat)
    (c : Cache) (e : CacheEntry)
    (he : findEntry (fingerprint fv) c = some e) :
    recognize fv f now c =
      (.ok { result := e.result, cached := true
             cache_hits := e.hit_count + 1 },
       (lookup (fingerprint fv) now c).2) := by
  have hl : lookup (fingerprint fv) now c =
      (some { e with hit_count := e.hit_count + 1, last_accessed_at := now },
       c.map (fun x => if x.fingerprint == fingerprint fv
         then { e with hit_count := e.hit_count + 1, last_accessed_at := now }
         else x)) := by
    unfold lookup
    rw [he]
  simp only [recognize]
  rw [hl]

theorem recognize_miss (fv : FeatureVector)
    (f : FeatureVector → Except RecogError RecogResult) (now : Nat)
    (c : Cache) (r : RecogResult)
    (hn : findEntry (fingerprint fv) c = none) (hr : f fv = .ok r) :
    recognize fv f now c =
      (.ok { result := r, cached := false, cache_hits := 0 },
       c ++ [{ fingerprint := fingerprint fv, result := r, hit_count := 0
               created_at := now, last_accessed_at := now }]) := by
  have hl : lookup (fingerprint fv) now c = (none, c) := by
    unfold lookup
    rw [hn]
  have hs : store (fingerprint fv) r now c =
      .ok ({ fingerprint := fingerprint fv, result := r, hit_count := 0
             created_at := now, last_accessed_at := now },
           c ++ [{ fingerprint := fingerprint fv, result := r, hit_count := 0
                   created_at := now, last_accessed_at := now }]) := by
    unfold store
    rw [hn]
  simp only [recognize]
  rw [hl]
  dsimp only
  rw [hr]
  dsimp only
  rw [hs]

theorem recognize_second_hit (fv fv2 : FeatureVector)
    (f f2 : FeatureVector → Except RecogError RecogResult) (now now2 : Nat)
    (c : Cache) (r : RecogResult)
    (hfp : fingerprint fv2 = fingerprint fv)
    (hn : findEntry (fingerprint fv) c = none) (hr : f fv = .ok r) :
    (recognize fv2 f2 now2 (recognize fv f now c).2).1 =
      .ok { result := r, cached := true, cache_hits := 0 + 1 } := by
  rw [recognize_miss fv f now c r hn hr]
  have hfind : findEntry (fingerprint fv2)
      (c ++ [{ fingerprint := fingerprint fv, result := r, hit_count := 0
               created_at := now, last_accessed_at := now }]) =
      some { fingerprint := fingerprint fv, result := r, hit_count := 0
             created_at := now, last_accessed_at := now } := by
    rw [hfp]
    exact findEntry_append_singleton hn rfl
  rw [recognize_hit fv2 f2 now2 _ _ hfind]

theorem lookup_map_fingerprint (fp : String) (now : Nat) (c : Cache) :
    ((lookup fp now c).2).map (·.fingerprint) = c.map (·.fingerprint) := by
  unfold lookup
  cases hf : findEntry fp c with
  | none => rfl
  | some e =>
    have he : e.fingerprint = fp := (findEntry_eq_some_imp hf).2
    dsimp only
    rw [List.map_map]
    apply List.map_congr_left
    intro x hx
    by_cases hxfp : x.fingerprint = fp
    · simp [Function.comp, hxfp, he]
    · simp [Function.comp, hxfp]

theorem unique_entry_eq {c : Cache} (h : UniqueFingerprints c)
    {e e' : CacheEntry} (he : e ∈ c) (he' : e' ∈ c)
    (hfp : e.fingerprint = e'.fingerprint) : e = e' :=
  List.inj_on_of_nodup_map h he he' hfp

theorem stepOp_unique (c : Cache) (op : CacheOp) (h : UniqueFingerprints c) :
    UniqueFingerprints (stepOp c op) := by
  cases op with
  | lookupOp fp now =>
    unfold UniqueFingerprints at *
    unfold stepOp
    rw [lookup_map_fingerprint]
    exact h
  | storeOp fp r now =>
    unfold stepOp
    dsimp only
    cases hf : findEntry fp c with
    | some e0 =>
      have hs : store fp r now c = .error .DuplicateKey := by
        unfold store; rw [hf]
      rw [hs]
      exact h
    | none =>
      have hs : store fp r now c =
          .ok ({ fingerprint := fp, result := r, hit_count := 0
                 created_at := now, last_accessed_at := now },
               c ++ [{ fingerprint := fp, result := r, hit_count := 0
                       created_at := now, last_accessed_at := now }]) := by
        unfold store; rw [hf]
      rw [hs]
      unfold UniqueFingerprints at *
      rw [List.map_append]
      refine h.append (by simp) ?_
      intro a ha hb
      obtain ⟨x, hx, hxa⟩ := List.mem_map.mp ha
      have hafp : a = fp := by simpa using hb
      exact findEntry_eq_none_imp hf x hx (by rw [hxa, hafp])
  | statsOp => exact h
  | clearOp =>
    unfold UniqueFingerprints
    simp [stepOp, clear]

theorem runOps_unique (c : Cache) (ops : List CacheOp)
    (h : UniqueFingerprints c) : UniqueFingerprints (runOps c ops) := by
  induction ops generalizing c with
  | nil => exact h
  | cons op ops ih => exact ih _ (stepOp_unique c op h)

theorem stepOp_evolution (c : Cache) (op : CacheOp)
    (h : UniqueFingerprints c) : EntryEvolution c (stepOp c op) := by
  cases op with
  | lookupOp fp now =>
    unfold stepOp
    dsimp only
    cases hf : findEntry fp c with
    | none =>
      have hl : (lookup fp now c).2 = c := by unfold lookup; rw [hf]
      rw [hl]
      intro e' he' e he hfp
      rw [unique_entry_eq h he he' hfp]
      exact ⟨le_refl _, rfl⟩
    | some e0 =>
      obtain ⟨he0mem, he0fp⟩ := findEntry_eq_some_imp hf
      have hl : (lookup fp now c).2 =
          c.map (fun x => if x.fingerprint == fp then
            { e0 with hit_count := e0.hit_count + 1, last_accessed_at := now }
            else x) := by
        unfold lookup; rw [hf]
      rw [hl]
      intro e' he' e he hfp
      obtain ⟨x, hx, hxe⟩ := List.mem_map.mp he'
      by_cases hxfp : x.fingerprint = fp
      · have he'eq : e' = { e0 with hit_count := e0.hit_count + 1
                                    last_accessed_at := now } := by
          rw [← hxe]; simp [hxfp]
        subst he'eq
        have hefp : e.fingerprint = e0.fingerprint := hfp
        have heq : e = e0 := unique_entry_eq h he he0mem hefp
        subst heq
        exact ⟨Nat.le_succ _, rfl⟩
      · have he'eq : e' = x := by rw [← hxe]; simp [hxfp]
        subst he'eq
        rw [unique_entry_eq h he hx hfp]
        exact ⟨le_refl _, rfl⟩
  | storeOp fp r now =>
    unfold stepOp
    dsimp only
    cases hf : findEntry fp c with
    | some e0 =>
      have hs : store fp r now c = .error .DuplicateKey := by
        unfold store; rw [hf]
      rw [hs]
      intro e' he' e he hfp
      rw [unique_entry_eq h he he' hfp]
      exact ⟨le_refl _, rfl⟩
    | none =>
      have hs : store fp r now c =
          .ok ({ fingerprint := fp, result := r, hit_count := 0
                 created_at := now, last_accessed_at := now },
               c ++ [{ fingerprint := fp, result := r, hit_count := 0
                       created_at := now, last_accessed_at := now }]) := by
        unfold store; rw [hf]
      rw [hs]
      intro e' he' e he hfp
      rcases List.mem_append.mp he' with hin | hsing
      · rw [unique_entry_eq h he hin hfp]
        exact ⟨le_refl _, rfl⟩
      · have he'eq : e' = { fingerprint := fp, result := r, hit_count := 0
                            created_at := now, last_accessed_at := now } := by
          simpa using hsing
        exfalso
        apply findEntry_eq_none_imp hf e he
        rw [hfp, he'eq]
  | statsOp =>
    intro e' he' e he hfp
    rw [unique_entry_eq h he he' hfp]
    exact ⟨le_refl _, rfl⟩
  | clearOp =>
    intro e' he'
    exact absurd he' (by simp [stepOp, clear])

/-- C5: every sequence of FeatureCache operations preserves the
uniqueness of fingerprints, and every single further operation carries
each surviving entry to one with at least the same hit count and exactly
the same result payload. -/
theorem cache_invariants_preserved (c : Cache) (h : UniqueFingerprints c)
    (ops : List CacheOp) :
    UniqueFingerprints (runOps c ops) ∧
    ∀ op, EntryEvolution (runOps c ops) (stepOp (runOps c ops) op) :=
  ⟨runOps_unique c ops h,
   fun op => stepOp_evolution _ op (runOps_unique c ops h)⟩

/-- Closed witness for C5: the empty cache has unique fingerprints, and
after a concrete store and lookup sequence the invariants still hold. -/
theorem cache_invariants_preserved_witness :
    UniqueFingerprints ([] : Cache) ∧
    (UniqueFingerprints (runOps []
        [CacheOp.storeOp "A" { label := "X", confidence := 0.9 } 0,
         CacheOp.lookupOp "A" 1]) ∧
     ∀ op, EntryEvolution
        (runOps []
          [CacheOp.storeOp "A" { label := "X", confidence := 0.9 } 0,
           CacheOp.lookupOp "A" 1])
        (stepOp (runOps []
          [CacheOp.storeOp "A" { label := "X", confidence := 0.9 } 0,
           CacheOp.lookupOp "A" 1]) op)) :=
  ⟨by simp [UniqueFingerprints],
   cache_invariants_preserved [] (by simp [UniqueFingerprints])
     [CacheOp.storeOp "A" { label := "X", confidence := 0.9 } 0,
      CacheOp.lookupOp "A" 1]⟩

/-- C1: recognize on a fingerprint present in the cache returns the
cached result annotated cached true with the current hit count; recognize
on an absent fingerprint invokes the recognizer, stores its result, and
returns it annotated cached false; hence for two feature vectors with the
same fingerprint, a second recognize call returns cached true with a hit
count exactly one greater than the stored value of zero. -/
theorem recognize_cache_contract (fv fv2 : FeatureVector)
    (f f2 : FeatureVector → Except RecogError RecogResult)
    (now now2 : Nat) (c : Cache) :
    (∀ e, findEntry (fingerprint fv) c = some e →
      recognize fv f now c =
        (.ok { result := e.result, cached := true
               cache_hits := e.hit_count + 1 },
         (lookup (fingerprint fv) now c).2)) ∧
    (∀ r, findEntry (fingerprint fv) c = none → f fv = .ok r →
      recognize fv f now c =
        (.ok { result := r, cached := false, cache_hits := 0 },
         c ++ [{ fingerprint := fingerprint fv, result := r, hit_count := 0
                 created_at := now, last_accessed_at := now }])) ∧
    (∀ r, fingerprint fv2 = fingerprint fv →
      findEntry (fingerprint fv) c = none → f fv = .ok r →
      (recognize fv2 f2 now2 (recognize fv f now c).2).1 =
        .ok { result := r, cached := true, cache_hits := 0 + 1 }) :=
  ⟨fun e he => recognize_hit fv f now c e he,
   fun r hn hr => recognize_miss fv f now c r hn hr,
   fun r hfp hn hr => recognize_second_hit fv fv2 f f2 now now2 c r hfp hn hr⟩

/-- Closed witness for C1: on the empty cache a concrete first recognize
call misses and stores, and a second call on the same feature vector hits
with one more hit than the stored value of zero. -/
theorem recognize_cache_contract_witness :
    (recognize [("p", (42 : Int))]
        (fun _ => .ok { label := "X", confidence := 0.9 }) 0 [] =
      (.ok { result := { label := "X", confidence := 0.9 }, cached := false
             cache_hits := 0 },
       [{ fingerprint := fingerprint [("p", (42 : Int))]
          result := { label := "X", confidence := 0.9 }, hit_count := 0
          created_at := 0, last_accessed_at := 0 }])) ∧
    (recognize [("p", (42 : Int))]
        (fun _ => .ok { label := "Y", confidence := 0.5 }) 1
        (recognize [("p", (42 : Int))]
          (fun _ => .ok { label := "X", confidence := 0.9 }) 0 []).2).1 =
      .ok { result := { label := "X", confidence := 0.9 }, cached := true
            cache_hits := 0 + 1 } := by
  have H := recognize_cache_contract [("p", (42 : Int))] [("p", (42 : Int))]
    (fun _ => .ok { label := "X", confidence := 0.9 })
    (fun _ => .ok { label := "Y", confidence := 0.5 }) 0 1 []
  exact ⟨H.2.1 _ rfl rfl, H.2.2 _ rfl rfl rfl⟩

/-- C3: when the fingerprint is absent and the recognizer fails, the
failure is surfaced to the caller verbatim, the cache after the call
equals the cache before it, and the entry count reported by stats is
unchanged. -/
theorem recognize_failure_surfaced (fv : FeatureVector)
    (f : FeatureVector → Except RecogError RecogResult) (now : Nat)
    (c : Cache) (err : RecogError)
    (hn : findEntry (fingerprint fv) c = none) (hr : f fv = .error err) :
    recognize fv f now c = (.error (.recognition err), c) ∧
    stats (recognize fv f now c).2 = stats c := by
  have hl : lookup (fingerprint fv) now c = (none, c) := by
    unfold lookup
    rw [hn]
  have h1 : recognize fv f now c = (.error (.recognition err), c) := by
    simp only [recognize]
    rw [hl]
    dsimp only
    rw [hr]
  exact ⟨h1, by rw [h1]⟩

/-- Closed witness for C3: a concrete failing recognizer on the empty
cache surfaces its error and leaves the cache and its stats unchanged. -/
theorem recognize_failure_surfaced_witness :
    recognize [("p", (42 : Int))]
        (fun _ => .error (.RecognitionFailed "boom")) 0 [] =
      (.error (.recognition (.RecognitionFailed "boom")), []) ∧
    stats (recognize [("p", (42 : Int))]
        (fun _ => .error (.RecognitionFailed "boom")) 0 []).2 =
      stats [] :=
  recognize_failure_surfaced [("p", (42 : Int))]
    (fun _ => .error (.RecognitionFailed "boom")) 0 []
    (.RecognitionFailed "boom") rfl rfl

theorem stopCamera_preserves_images {Img Res : Type} (s : FaceState Img Res) :
    (stopCamera s).capturedImage = s.capturedImage ∧
    (stopCamera s).uploadedImage = s.uploadedImage ∧
    (stopCamera s).result = s.result := by
  unfold stopCamera
  split <;> dsimp only <;> split <;> exact ⟨rfl, rfl, rfl⟩

theorem capturePhoto_true_eq {Img Res : Type} (blob : Img)
    (s : FaceState Img Res) :
    capturePhoto true blob s =
      stopCamera { s with capturedImage := some blob, uploadedImage := none
                          result := none } := rfl

theorem clearImage_fields {Img Res : Type} (v : Bool) (s : FaceState Img Res) :
    (clearImage v s).capturedImage = none ∧
    (clearImage v s).uploadedImage = none ∧
    (clearImage v s).result = none := by
  unfold clearImage
  split <;> exact ⟨rfl, rfl, rfl⟩

/-- C9: the FaceRecognition component keeps at most one of capturedImage
and uploadedImage non-null: capturePhoto stores the captured blob and
nulls the uploaded image, handleFileUpload stores the chosen file and
nulls the captured image, clearImage nulls both, and each of the three
handlers also resets the result to null. -/
theorem faceRecognition_image_invariant {Img Res : Type}
    (s : FaceState Img Res) (h : AtMostOneImage s)
    (refsOk videoRefOk : Bool) (blob : Img) (file : Option Img) :
    AtMostOneImage (capturePhoto refsOk blob s) ∧
    AtMostOneImage (handleFileUpload file s) ∧
    AtMostOneImage (clearImage videoRefOk s) ∧
    (refsOk = true →
      (capturePhoto refsOk blob s).capturedImage = some blob ∧
      (capturePhoto refsOk blob s).uploadedImage = none ∧
      (capturePhoto refsOk blob s).result = none) ∧
    (∀ f, file = some f →
      (handleFileUpload file s).uploadedImage = some f ∧
      (handleFileUpload file s).capturedImage = none ∧
      (handleFileUpload file s).result = none) ∧
    (clearImage videoRefOk s).capturedImage = none ∧
    (clearImage videoRefOk s).uploadedImage = none ∧
    (clearImage videoRefOk s).result = none := by
  refine ⟨?_, ?_, ?_, ?_, ?_, ?_, ?_, ?_⟩
  · cases refsOk with
    | false => exact h
    | true =>
      rw [capturePhoto_true_eq]
      exact Or.inr (stopCamera_preserves_images _).2.1
  · rcases file with _ | f
    · exact h
    · exact Or.inl rfl
  · exact Or.inl (clearImage_fields videoRefOk s).1
  · intro hr
    subst hr
    rw [capturePhoto_true_eq]
    exact ⟨(stopCamera_preserves_images _).1,
           (stopCamera_preserves_images _).2.1,
           (stopCamera_preserves_images _).2.2⟩
  · intro f hf
    subst hf
    exact ⟨rfl, rfl, rfl⟩
  · exact (clearImage_fields videoRefOk s).1
  · exact (clearImage_fields videoRefOk s).2.1
  · exact (clearImage_fields videoRefOk s).2.2

/-- Closed witness for C9: on a concrete state with both image slots
empty, the three handlers preserve the invariant and have the stated
effects. -/
theorem faceRecognition_image_invariant_witness :
    AtMostOneImage
      (⟨none, none, none, false, false, false, false, false, false⟩ :
        FaceState Nat Nat) ∧
    (capturePhoto true 7
      (⟨none, none, none, false, false, false, false, false, false⟩ :
        FaceState Nat Nat)).capturedImage = some 7 ∧
    (capturePhoto true 7
      (⟨none, none, none, false, false, false, false, false, false⟩ :
        FaceState Nat Nat)).uploadedImage = none ∧
    (handleFileUpload (some 5)
      (⟨none, none, none, false, false, false, false, false, false⟩ :
        FaceState Nat Nat)).uploadedImage = some 5 ∧
    (clearImage true
      (⟨none, none, none, false, false, false, false, false, false⟩ :
        FaceState Nat Nat)).result = none := by
  have H := faceRecognition_image_invariant
    (⟨none, none, none, false, false, false, false, false, false⟩ :
      FaceState Nat Nat) (Or.inl rfl) true true 7 (some 5)
  exact ⟨Or.inl rfl, (H.2.2.2.1 rfl).1, (H.2.2.2.1 rfl).2.1,
         (H.2.2.2.2.1 5 rfl).1, H.2.2.2.2.2.2.2⟩

/-- Closed witness for C4: a concrete store on the empty cache followed
by a lookup returns the stored payload. -/
theorem store_lookup_roundtrip_witness :
    store "A" { label := "X", confidence := 0.9 } 0 ([] : Cache) =
      .ok ({ fingerprint := "A", result := { label := "X", confidence := 0.9 },
             hit_count := 0, created_at := 0, last_accessed_at := 0 },
           [{ fingerprint := "A", result := { label := "X", confidence := 0.9 },
              hit_count := 0, created_at := 0, last_accessed_at := 0 }]) ∧
    (lookup "A" 5
        [{ fingerprint := "A", result := { label := "X", confidence := 0.9 },
           hit_count := 0, created_at := 0, last_accessed_at := 0 }]).1.map
        CacheEntry.result =
      some { label := "X", confidence := 0.9 } :=
  ⟨rfl, store_lookup_roundtrip "A" _ 0 5 [] _ _ rfl⟩

end TorchTartan
